import Mathlib

/-
Verification of the mayaViewer shader-override pipeline
(src/examples/mayaViewer/OpenSubdivShaderOverride.cpp) against its
natural-language specification. The C++ file is shallowly embedded:
pure callback logic becomes Lean functions on explicit state, the plugin
initialization and shutdown entry points become functions returning a
status together with an acquisition or release trace, and the per-frame
draw loop becomes a function from the render-item list to a result flag
plus a trace of stage events. Host (Maya) API semantics that the file
relies on are modelled from the specification of the external
interfaces, and are marked as such in their doc comments.
-/

namespace OpenSubdivMayaViewer

/- ------------------------------------------------------------------
   ChangeTracker: attrChangedCB and the topology-dirty flag
   ------------------------------------------------------------------ -/

/-- Identifier of a Maya node attribute. The attribute named outMesh on
the shape node is singled out because attrChangedCB compares the
notifying plug against it; every other attribute is kept abstract. -/
inductive AttrId where
  | outMesh
  | other (tag : Nat)
deriving DecidableEq

/-- Model of an MPlug: a plug is identified by the node it lives on and
the attribute it refers to. The comparison of a plug with the attribute
object returned by MFnDependencyNode.attribute on the same node holds
exactly when the node and the attribute both match. -/
structure MPlug where
  node : Nat
  attr : AttrId
deriving DecidableEq

/-- Relevant part of an MNodeMessage.AttributeMessage bit mask: whether
the kAttributeEval bit is present. The remaining bits are retained
abstractly. -/
structure AttributeMessage where
  attributeEval : Bool
  otherBits : Nat
deriving DecidableEq

/-- Per-item mesh data (OsdMeshData), restricted to the pieces the
claims need: the dag node handle returned by getDagPath and the
topology-dirty flag. -/
structure OsdMeshData where
  dagNode : Nat
  meshTopoDirty : Bool
deriving DecidableEq

/-- Modelled from the spec: OsdMeshData.setMeshTopoDirty is implemented
in osdMeshData.cpp, which is not under src/. Per the specification
(section 3, DirtyFlags, and section 4.1), the ChangeTracker callback
sets the topology-dirty flag of the owning cache entry. -/
def setMeshTopoDirty (d : OsdMeshData) : OsdMeshData :=
  { d with meshTopoDirty := true }

/-- Plug naming the outMesh attribute of the shape node held by the mesh
data, as obtained in the callback via MFnDependencyNode.attribute. -/
def outMeshPlug (d : OsdMeshData) : MPlug :=
  { node := d.dagNode, attr := AttrId.outMesh }

/-- OpenSubdivShaderOverride.attrChangedCB: the callback fires with a
message mask, the notifying plug, the other plug of a connection (which
the body never reads) and the client data. The flag is set when the
message includes kAttributeEval and the plug is the outMesh plug of the
shape node; otherwise the state is returned untouched. -/
def attrChangedCB (msg : AttributeMessage) (plug : MPlug)
    (otherPlug : MPlug) (d : OsdMeshData) : OsdMeshData :=
  if msg.attributeEval then
    if plug = outMeshPlug d then setMeshTopoDirty d else d
  else d

/-- Classification implicit in the callback. The code comment explains
that the host offers no notification fine-grained enough to isolate
topology edits, so any evaluation of the shape node outMesh attribute
may or may not be a topology change (an ambiguous event), while every
other notification is classified as definitely unrelated to topology:
topology edits surface as evaluations of the mesh output attribute. -/
def definitelyUnrelatedToTopology (msg : AttributeMessage) (plug : MPlug)
    (d : OsdMeshData) : Prop :=
  ¬ (msg.attributeEval = true ∧ plug = outMeshPlug d)

instance decDefinitelyUnrelatedToTopology (msg : AttributeMessage)
    (plug : MPlug) (d : OsdMeshData) :
    Decidable (definitelyUnrelatedToTopology msg plug d) := by
  unfold definitelyUnrelatedToTopology
  infer_instance

/-- C1: every notification that the callback cannot classify as
definitely unrelated to topology (an ambiguous event, that is an
evaluation of the shape node outMesh attribute which may or may not be a
real topology change) sets the topology-dirty flag: the callback applies
setMeshTopoDirty, so the event is not ignored and after the callback the
dirty flag holds. Marking dirty is the fail-closed default for the
ambiguous class. -/
theorem claim_C1 (msg : AttributeMessage) (plug otherPlug : MPlug)
    (d : OsdMeshData)
    (h : ¬ definitelyUnrelatedToTopology msg plug d) :
    attrChangedCB msg plug otherPlug d = setMeshTopoDirty d ∧
    (attrChangedCB msg plug otherPlug d).meshTopoDirty = true := by
  simp only [definitelyUnrelatedToTopology, not_not] at h
  refine ⟨?_, ?_⟩
  · simp [attrChangedCB, h.1, h.2]
  · simp [attrChangedCB, h.1, h.2, setMeshTopoDirty]

theorem claim_C1_witness :
    ¬ definitelyUnrelatedToTopology ⟨true, 0⟩ ⟨3, AttrId.outMesh⟩ ⟨3, false⟩ ∧
    (attrChangedCB ⟨true, 0⟩ ⟨3, AttrId.outMesh⟩ ⟨3, AttrId.other 1⟩ ⟨3, false⟩ =
        setMeshTopoDirty ⟨3, false⟩ ∧
      (attrChangedCB ⟨true, 0⟩ ⟨3, AttrId.outMesh⟩ ⟨3, AttrId.other 1⟩
          ⟨3, false⟩).meshTopoDirty = true) :=
  ⟨by decide,
    claim_C1 ⟨true, 0⟩ ⟨3, AttrId.outMesh⟩ ⟨3, AttrId.other 1⟩ ⟨3, false⟩
      (by decide)⟩

/-- C9: the callback sets the topology-dirty flag exactly when the
message includes the attribute-evaluation bit and the notifying plug is
the outMesh plug of the shape node; for every other combination of
message and plug the mesh data is returned with no state modified. -/
theorem claim_C9 (msg : AttributeMessage) (plug otherPlug : MPlug)
    (d : OsdMeshData) :
    ((msg.attributeEval = true ∧ plug = outMeshPlug d) →
        attrChangedCB msg plug otherPlug d = setMeshTopoDirty d) ∧
    (¬ (msg.attributeEval = true ∧ plug = outMeshPlug d) →
        attrChangedCB msg plug otherPlug d = d) := by
  constructor
  · rintro ⟨h1, h2⟩
    simp [attrChangedCB, h1, h2]
  · intro h
    by_cases h1 : msg.attributeEval = true
    · by_cases h2 : plug = outMeshPlug d
      · exact absurd ⟨h1, h2⟩ h
      · simp [attrChangedCB, h1, h2]
    · simp [attrChangedCB, h1]

theorem claim_C9_witness :
    (((⟨false, 2⟩ : AttributeMessage).attributeEval = true ∧
        (⟨4, AttrId.other 0⟩ : MPlug) = outMeshPlug ⟨4, false⟩) →
      attrChangedCB ⟨false, 2⟩ ⟨4, AttrId.other 0⟩ ⟨4, AttrId.other 1⟩ ⟨4, false⟩ =
        setMeshTopoDirty ⟨4, false⟩) ∧
    (¬ ((⟨false, 2⟩ : AttributeMessage).attributeEval = true ∧
        (⟨4, AttrId.other 0⟩ : MPlug) = outMeshPlug ⟨4, false⟩) →
      attrChangedCB ⟨false, 2⟩ ⟨4, AttrId.other 0⟩ ⟨4, AttrId.other 1⟩ ⟨4, false⟩ =
        ⟨4, false⟩) :=
  claim_C9 ⟨false, 2⟩ ⟨4, AttrId.other 0⟩ ⟨4, AttrId.other 1⟩ ⟨4, false⟩

/- ------------------------------------------------------------------
   Plugin initialization and shutdown: backend controllers, the OpenCL
   context, and the host registrations
   ------------------------------------------------------------------ -/

/-- Status results of Maya plugin entry points. -/
inductive MStatus where
  | kSuccess
  | kFailure
deriving DecidableEq

/-- Compile-time configuration: which optional compute backends are
compiled in (the OPENSUBDIV_HAS preprocessor flags). The CPU backend is
always compiled in. -/
structure BuildConfig where
  hasOpenMP : Bool
  hasCUDA : Bool
  hasOpenCL : Bool
deriving DecidableEq

/-- Modelled from the spec: the OpenCL probe initCL lives in
examples/common/clInit.h, which is not under src/. Per the spec, a
backend availability probe either succeeds or fails; the environment
records the outcome of the OpenCL probe for this process. -/
structure Env where
  clAvailable : Bool
deriving DecidableEq

/-- Resources acquired by initializePlugin and released by
uninitializePlugin: one compute-controller instance per backend, the
OpenCL context and command queue, and the three host registrations. -/
inductive Resource where
  | cpuController
  | ompController
  | cudaController
  | clController
  | clContext
  | clQueue
  | nodeRegistration
  | bufferGenRegistration
  | shaderOverrideRegistration
deriving DecidableEq

/-- Entry point initializePlugin, as the returned status together with
the list of resources acquired, in acquisition order, by the time it
returns. The CPU controller is allocated first, then the OpenMP and
CUDA controllers when compiled in; the OpenCL probe runs next and a
failed probe returns kFailure at once, before any registration; on the
success path the OpenCL context, queue and controller are acquired and
the node, vertex-buffer-generator and shader-override registrations are
made. -/
def initializePlugin (cfg : BuildConfig) (env : Env) :
    MStatus × List Resource :=
  let acc := [Resource.cpuController]
  let acc := acc ++ (if cfg.hasOpenMP then [Resource.ompController] else [])
  let acc := acc ++ (if cfg.hasCUDA then [Resource.cudaController] else [])
  if cfg.hasOpenCL then
    if env.clAvailable then
      (MStatus.kSuccess,
        acc ++ [Resource.clContext, Resource.clQueue, Resource.clController,
                Resource.nodeRegistration, Resource.bufferGenRegistration,
                Resource.shaderOverrideRegistration])
    else
      (MStatus.kFailure, acc)
  else
    (MStatus.kSuccess,
      acc ++ [Resource.nodeRegistration, Resource.bufferGenRegistration,
              Resource.shaderOverrideRegistration])

/-- Entry point uninitializePlugin, as the list of resources released in
release order: the node registration, the vertex-buffer-generator
registration, the shader-override registration, then the controllers in
CPU, OpenMP, CUDA, OpenCL order. The OpenCL context and queue are not
released by the code. -/
def uninitializePlugin (cfg : BuildConfig) : List Resource :=
  [Resource.nodeRegistration, Resource.bufferGenRegistration,
   Resource.shaderOverrideRegistration, Resource.cpuController]
  ++ (if cfg.hasOpenMP then [Resource.ompController] else [])
  ++ (if cfg.hasCUDA then [Resource.cudaController] else [])
  ++ (if cfg.hasOpenCL then [Resource.clController] else [])

/-- Predicate selecting the compute-controller resources. -/
def isController : Resource → Bool
  | Resource.cpuController => true
  | Resource.ompController => true
  | Resource.cudaController => true
  | Resource.clController => true
  | _ => false

/-- Predicate selecting the host registrations. -/
def isRegistration : Resource → Bool
  | Resource.nodeRegistration => true
  | Resource.bufferGenRegistration => true
  | Resource.shaderOverrideRegistration => true
  | _ => false

/-- Live compute-controller instances among the acquired resources. -/
def liveControllers (acq : List Resource) : List Resource :=
  acq.filter isController

/-- Host registrations among the acquired resources. -/
def registrationsOf (acq : List Resource) : List Resource :=
  acq.filter isRegistration

/-- The four backend kinds behind the common compute contract. -/
inductive Backend where
  | cpu
  | omp
  | cuda
  | cl
deriving DecidableEq

/-- Modelled from the spec: backend availability. The single-threaded
CPU baseline is always available; an optional backend is available when
it is compiled in and, for OpenCL, when its probe succeeds (OpenMP and
CUDA have no availability probe in the code). -/
def backendAvailable (cfg : BuildConfig) (env : Env) : Backend → Bool
  | Backend.cpu => true
  | Backend.omp => cfg.hasOpenMP
  | Backend.cuda => cfg.hasCUDA
  | Backend.cl => cfg.hasOpenCL && env.clAvailable

/-- C2 counterexample: in a build with OpenMP compiled in,
initialization succeeds and leaves two live compute-controller
instances, the CPU controller and the OpenMP controller, so the claim
that at no point two or more live backend instances exist fails. -/
theorem claim_C2_counterexample :
    (initializePlugin ⟨true, false, false⟩ ⟨true⟩).1 = MStatus.kSuccess ∧
    liveControllers (initializePlugin ⟨true, false, false⟩ ⟨true⟩).2 =
      [Resource.cpuController, Resource.ompController] := by
  decide

/-- C2 amended: initializePlugin instantiates one controller instance
per compiled-in backend, always including the CPU controller, in a
fixed order determined by the build configuration alone, and the set of
live instances is fixed when initialization returns; exactly one live
instance exists precisely when no optional backend is compiled in.
There is no instantiation anywhere outside initializePlugin, so no
per-frame switching occurs. -/
theorem claim_C2 (cfg : BuildConfig) (env : Env)
    (h : (initializePlugin cfg env).1 = MStatus.kSuccess) :
    liveControllers (initializePlugin cfg env).2 =
      [Resource.cpuController]
        ++ (if cfg.hasOpenMP then [Resource.ompController] else [])
        ++ (if cfg.hasCUDA then [Resource.cudaController] else [])
        ++ (if cfg.hasOpenCL then [Resource.clController] else []) ∧
    ((liveControllers (initializePlugin cfg env).2).length = 1 ↔
      (cfg.hasOpenMP = false ∧ cfg.hasCUDA = false ∧
        cfg.hasOpenCL = false)) := by
  obtain ⟨a, b, c⟩ := cfg
  obtain ⟨e⟩ := env
  revert h
  cases a <;> cases b <;> cases c <;> cases e <;> decide

theorem claim_C2_witness :
    (initializePlugin (BuildConfig.mk true false false) (Env.mk false)).1 =
        MStatus.kSuccess ∧
    (liveControllers
        (initializePlugin (BuildConfig.mk true false false) (Env.mk false)).2 =
      [Resource.cpuController]
        ++ (if (BuildConfig.mk true false false).hasOpenMP then
              [Resource.ompController] else [])
        ++ (if (BuildConfig.mk true false false).hasCUDA then
              [Resource.cudaController] else [])
        ++ (if (BuildConfig.mk true false false).hasOpenCL then
              [Resource.clController] else []) ∧
    ((liveControllers
        (initializePlugin (BuildConfig.mk true false false)
          (Env.mk false)).2).length = 1 ↔
      ((BuildConfig.mk true false false).hasOpenMP = false ∧
        (BuildConfig.mk true false false).hasCUDA = false ∧
        (BuildConfig.mk true false false).hasOpenCL = false))) :=
  ⟨by decide,
    claim_C2 (BuildConfig.mk true false false) (Env.mk false) (by decide)⟩

/-- C3 counterexample: with OpenCL compiled in and its probe failing,
initialization fails fatally even though the always-available CPU
backend is present, so initialization does not fall back to the next
backend and does not fail only when every backend is unavailable. -/
theorem claim_C3_counterexample :
    (initializePlugin ⟨false, false, true⟩ ⟨false⟩).1 = MStatus.kFailure ∧
    backendAvailable ⟨false, false, true⟩ ⟨false⟩ Backend.cpu = true := by
  decide

/-- C3 amended: initialization fails fatally exactly when the OpenCL
backend is compiled in and its availability probe fails; the failure is
immediate with no fallback to any other backend, even though the CPU
baseline is always available, and no backend other than OpenCL has an
availability probe. -/
theorem claim_C3 (cfg : BuildConfig) (env : Env) :
    (initializePlugin cfg env).1 = MStatus.kFailure ↔
      (cfg.hasOpenCL = true ∧ env.clAvailable = false) := by
  obtain ⟨a, b, c⟩ := cfg
  obtain ⟨e⟩ := env
  cases a <;> cases b <;> cases c <;> cases e <;> decide

/-- C4 counterexample: on the fatal path (OpenCL compiled in, probe
fails) the CPU compute controller allocated earlier in initializePlugin
is still allocated when the failing initialization returns, so partial
state remains. -/
theorem claim_C4_counterexample :
    (initializePlugin ⟨false, false, true⟩ ⟨false⟩).1 = MStatus.kFailure ∧
    liveControllers (initializePlugin ⟨false, false, true⟩ ⟨false⟩).2 =
      [Resource.cpuController] := by
  decide

/-- C4 amended: when initialization fails fatally, no node,
buffer-generator or shader-override registration is in effect (the
failure precedes every registration) and no OpenCL resource was
acquired, but the compute controllers allocated before the failure
point, the CPU controller plus the OpenMP and CUDA controllers when
compiled in, remain allocated. -/
theorem claim_C4 (cfg : BuildConfig) (env : Env)
    (h : (initializePlugin cfg env).1 = MStatus.kFailure) :
    registrationsOf (initializePlugin cfg env).2 = [] ∧
    liveControllers (initializePlugin cfg env).2 =
      [Resource.cpuController]
        ++ (if cfg.hasOpenMP then [Resource.ompController] else [])
        ++ (if cfg.hasCUDA then [Resource.cudaController] else []) ∧
    Resource.clContext ∉ (initializePlugin cfg env).2 ∧
    Resource.clQueue ∉ (initializePlugin cfg env).2 := by
  obtain ⟨a, b, c⟩ := cfg
  obtain ⟨e⟩ := env
  revert h
  cases a <;> cases b <;> cases c <;> cases e <;> decide

theorem claim_C4_witness :
    (initializePlugin (BuildConfig.mk true false true) (Env.mk false)).1 =
        MStatus.kFailure ∧
    (registrationsOf
        (initializePlugin (BuildConfig.mk true false true) (Env.mk false)).2 =
          [] ∧
    liveControllers
        (initializePlugin (BuildConfig.mk true false true) (Env.mk false)).2 =
      [Resource.cpuController]
        ++ (if (BuildConfig.mk true false true).hasOpenMP then
              [Resource.ompController] else [])
        ++ (if (BuildConfig.mk true false true).hasCUDA then
              [Resource.cudaController] else []) ∧
    Resource.clContext ∉
        (initializePlugin (BuildConfig.mk true false true) (Env.mk false)).2 ∧
    Resource.clQueue ∉
        (initializePlugin (BuildConfig.mk true false true) (Env.mk false)).2) :=
  ⟨by decide,
    claim_C4 (BuildConfig.mk true false true) (Env.mk false) (by decide)⟩

/-- Reverse-acquisition release discipline: among resources that occur
both in the acquisition list and in the release list, a resource
acquired strictly earlier is released strictly later. -/
def releasedInReverseOrder (acq rel : List Resource) : Prop :=
  ∀ r1 ∈ acq, ∀ r2 ∈ acq, r1 ∈ rel → r2 ∈ rel →
    acq.indexOf r1 < acq.indexOf r2 → rel.indexOf r2 < rel.indexOf r1

/-- Predicate selecting the backend device/context resources: the
compute controllers and the OpenCL context and command queue, as
opposed to the host registrations. -/
def isBackendResource : Resource → Bool
  | Resource.cpuController => true
  | Resource.ompController => true
  | Resource.cudaController => true
  | Resource.clController => true
  | Resource.clContext => true
  | Resource.clQueue => true
  | _ => false

/-- Backend device/context resources among a resource trace, in trace
order. -/
def backendResourcesOf (l : List Resource) : List Resource :=
  l.filter isBackendResource

/-- C8 counterexample: in a build with OpenMP compiled in, the CPU
controller is acquired before the OpenMP controller during
initialization and is also released before it during uninitialization,
so for this pair of backend device/context resources the one acquired
later is not released earlier: backend resources are not released in
reverse-acquisition order. -/
theorem claim_C8_counterexample :
    ¬ releasedInReverseOrder
        (backendResourcesOf (initializePlugin ⟨true, false, false⟩ ⟨true⟩).2)
        (backendResourcesOf (uninitializePlugin ⟨true, false, false⟩)) := by
  unfold releasedInReverseOrder
  decide

/-- C8 amended: on shutdown the backend device/context resources are
released in the same order they were acquired, not in reverse: the
released backend resources are exactly the acquired compute
controllers, in their acquisition order (CPU, OpenMP, CUDA, OpenCL),
and the OpenCL context and command queue are never released at all. -/
theorem claim_C8 (cfg : BuildConfig) (env : Env)
    (h : (initializePlugin cfg env).1 = MStatus.kSuccess) :
    backendResourcesOf (uninitializePlugin cfg) =
      liveControllers (initializePlugin cfg env).2 ∧
    Resource.clContext ∉ uninitializePlugin cfg ∧
    Resource.clQueue ∉ uninitializePlugin cfg := by
  obtain ⟨a, b, c⟩ := cfg
  obtain ⟨e⟩ := env
  revert h
  cases a <;> cases b <;> cases c <;> cases e <;> decide

theorem claim_C8_witness :
    (initializePlugin (BuildConfig.mk true true true) (Env.mk true)).1 =
        MStatus.kSuccess ∧
    (backendResourcesOf (uninitializePlugin (BuildConfig.mk true true true)) =
      liveControllers
        (initializePlugin (BuildConfig.mk true true true) (Env.mk true)).2 ∧
    Resource.clContext ∉ uninitializePlugin (BuildConfig.mk true true true) ∧
    Resource.clQueue ∉ uninitializePlugin (BuildConfig.mk true true true)) :=
  ⟨by decide,
    claim_C8 (BuildConfig.mk true true true) (Env.mk true) (by decide)⟩

/- ------------------------------------------------------------------
   Per-frame draw: the stage order over the render-item list
   ------------------------------------------------------------------ -/

/-- Stage events emitted by the per-item body of the draw loop, in the
order the code calls them: rebuildHbrMeshIfNeeded (topology check),
prepare (refinement-plan check), updateGeometry (refine through the
compute backend), and the shader draw call. The item index records
which render item the stage ran for. -/
inductive StageEvent where
  | topologyCheck (itemIndex : Nat)
  | planCheck (itemIndex : Nat)
  | refineGeometry (itemIndex : Nat)
  | drawPatches (itemIndex : Nat)
deriving DecidableEq

/-- Render item as the draw loop sees it: the per-item custom data is
either the OsdMeshData pointer installed by initialize, or null. The
payload type is abstract because the loop only tests it for null. -/
structure MRenderItem (α : Type) where
  customData : Option α

/-- Body of OpenSubdivShaderOverride.draw over the render-item list,
carrying the current item index: a null custom-data pointer returns
false immediately; otherwise the four stages run in order for the item
and the loop continues. The final return value on full traversal is
true. -/
def drawLoop {α : Type} : Nat → List (MRenderItem α) → Bool × List StageEvent
  | _, [] => (true, [])
  | i, item :: rest =>
    match item.customData with
    | none => (false, [])
    | some _ =>
      let r := drawLoop (i + 1) rest
      (r.1,
        StageEvent.topologyCheck i :: StageEvent.planCheck i ::
          StageEvent.refineGeometry i :: StageEvent.drawPatches i :: r.2)

/-- OpenSubdivShaderOverride.draw, as the returned flag and the trace of
stage events. The depth and blend state setup preceding the loop does
not touch the per-item pipeline and is omitted. The function is total:
every call returns one of the two outcomes, so no exception reaches the
draw stage in this model, matching the code, which has no throw on this
path. -/
def draw {α : Type} (items : List (MRenderItem α)) : Bool × List StageEvent :=
  drawLoop 0 items

/-- Expected event trace for n items processed completely, starting at
item index i: the four stages of each item, in order, item by item. -/
def canonicalTrace : Nat → Nat → List StageEvent
  | _, 0 => []
  | i, n + 1 =>
      StageEvent.topologyCheck i :: StageEvent.planCheck i ::
        StageEvent.refineGeometry i :: StageEvent.drawPatches i ::
        canonicalTrace (i + 1) n

theorem drawLoop_all_present {α : Type} :
    ∀ (items : List (MRenderItem α)) (i : Nat),
      (∀ it ∈ items, it.customData.isSome = true) →
      drawLoop i items = (true, canonicalTrace i items.length) := by
  intro items
  induction items with
  | nil => intro i _; rfl
  | cons item rest ih =>
    intro i h
    have h1 : item.customData.isSome = true := h item (List.mem_cons_self item rest)
    obtain ⟨d, hd⟩ := Option.isSome_iff_exists.mp h1
    have hrest := ih (i + 1) (fun it hit => h it (List.mem_cons_of_mem _ hit))
    simp [drawLoop, hd, hrest, canonicalTrace]

theorem drawLoop_stops_at_none {α : Type} :
    ∀ (pre : List (MRenderItem α)) (i : Nat) (bad : MRenderItem α)
      (post : List (MRenderItem α)),
      (∀ it ∈ pre, it.customData.isSome = true) →
      bad.customData = none →
      drawLoop i (pre ++ bad :: post) = (false, canonicalTrace i pre.length) := by
  intro pre
  induction pre with
  | nil =>
    intro i bad post _ hbad
    simp [drawLoop, hbad, canonicalTrace]
  | cons item rest ih =>
    intro i bad post h hbad
    have h1 : item.customData.isSome = true := h item (List.mem_cons_self item rest)
    obtain ⟨d, hd⟩ := Option.isSome_iff_exists.mp h1
    have hrest := ih (i + 1) bad post
      (fun it hit => h it (List.mem_cons_of_mem _ hit)) hbad
    simp [drawLoop, hd, hrest, canonicalTrace]

theorem canonicalTrace_drawPatches_lt :
    ∀ (n i j : Nat), StageEvent.drawPatches j ∈ canonicalTrace i n → j < i + n := by
  intro n
  induction n with
  | zero => intro i j h; simp [canonicalTrace] at h
  | succ n ih =>
    intro i j h
    simp only [canonicalTrace, List.mem_cons] at h
    rcases h with h | h | h | h | h
    · exact absurd h (by simp)
    · exact absurd h (by simp)
    · exact absurd h (by simp)
    · have : j = i := by
        injection h
      omega
    · have := ih (i + 1) j h
      omega

/-- C5: on a draw request whose render items all carry mesh data, the
per-frame pipeline runs, for each item in turn, first the topology
check (rebuildHbrMeshIfNeeded), then the plan check (prepare), then the
refine step (updateGeometry) and then the draw hand-off, in exactly
this order, with no stage skipped and no stage out of order, and the
call reports success. -/
theorem claim_C5 {α : Type} (items : List (MRenderItem α))
    (h : ∀ it ∈ items, it.customData.isSome = true) :
    draw items = (true, canonicalTrace 0 items.length) :=
  drawLoop_all_present items 0 h

theorem claim_C5_witness :
    (∀ it ∈ [MRenderItem.mk (some (0 : Nat)), MRenderItem.mk (some 1)],
        it.customData.isSome = true) ∧
    draw [MRenderItem.mk (some (0 : Nat)), MRenderItem.mk (some 1)] =
      (true, canonicalTrace 0
        [MRenderItem.mk (some (0 : Nat)), MRenderItem.mk (some 1)].length) :=
  ⟨by decide,
    claim_C5 [MRenderItem.mk (some (0 : Nat)), MRenderItem.mk (some 1)]
      (by decide)⟩

/-- C6: per-frame errors are absorbed at the override boundary. The
draw entry point is a total function returning only the two outcomes
true (buffers were handed to the draw stage) or false (nothing to draw
this frame). A render item whose custom data is null makes the frame
return false with no draw hand-off for that item or any later item,
rather than raising an error; and because draw is a function of the
current frame input alone, a later frame whose items all carry data
draws normally, so the failed frame does not prevent later frames. -/
theorem claim_C6 {α : Type} (pre post : List (MRenderItem α))
    (bad : MRenderItem α) (hbad : bad.customData = none)
    (hpre : ∀ it ∈ pre, it.customData.isSome = true) :
    draw (pre ++ bad :: post) = (false, canonicalTrace 0 pre.length) ∧
    (∀ j, pre.length ≤ j →
      StageEvent.drawPatches j ∉ (draw (pre ++ bad :: post)).2) ∧
    (∀ items2 : List (MRenderItem α),
      (∀ it ∈ items2, it.customData.isSome = true) →
      (draw items2).1 = true) := by
  have hmain : draw (pre ++ bad :: post) = (false, canonicalTrace 0 pre.length) :=
    drawLoop_stops_at_none pre 0 bad post hpre hbad
  refine ⟨hmain, ?_, ?_⟩
  · intro j hj hmem
    rw [hmain] at hmem
    have := canonicalTrace_drawPatches_lt pre.length 0 j hmem
    omega
  · intro items2 h2
    have := drawLoop_all_present items2 0 h2
    simp [draw, this]

theorem claim_C6_witness :
    (MRenderItem.mk (none : Option Nat)).customData = none ∧
    (∀ it ∈ [MRenderItem.mk (some (0 : Nat))], it.customData.isSome = true) ∧
    draw ([MRenderItem.mk (some (0 : Nat))] ++
        MRenderItem.mk none :: [MRenderItem.mk (some 1)]) =
      (false, canonicalTrace 0 [MRenderItem.mk (some (0 : Nat))].length) :=
  ⟨rfl, by decide,
    (claim_C6 [MRenderItem.mk (some (0 : Nat))] [MRenderItem.mk (some 1)]
      (MRenderItem.mk none) rfl (by decide)).1⟩

/- ------------------------------------------------------------------
   Subscription lifecycle: addTopologyChangedCallbacks and the
   destructor
   ------------------------------------------------------------------ -/

/-- Host-side callback registry: the live subscriptions as pairs of
callback id and client-data handle, plus a counter supplying fresh ids.
Freshness of ids is the host guarantee that callback ids of distinct
registrations never collide. -/
structure HostState where
  registry : List (Nat × Nat)
  nextId : Nat
deriving DecidableEq

/-- Per-instance state of the shader override: the MCallbackIdArray
field holding the recorded callback ids. -/
structure OverrideInstance where
  callbackIds : List Nat
deriving DecidableEq

/-- Modelled from the spec: MNodeMessage.addAttributeChangedCallback is
host API (spec section 6, subscribe). On success the host registers a
fresh subscription token mapped to the client data and returns the
token; on failure nothing is registered and no token is returned. The
ok flag stands for the status the host reports. -/
def addAttributeChangedCallback (h : HostState) (clientData : Nat)
    (ok : Bool) : HostState × Option Nat :=
  if ok then
    ({ registry := h.registry ++ [(h.nextId, clientData)],
       nextId := h.nextId + 1 },
      some h.nextId)
  else (h, none)

/-- OpenSubdivShaderOverride.addTopologyChangedCallbacks: registers the
attribute-changed callback on the shape node with the per-item data as
client data, and appends the returned callback id to the callbackIds
array only when the registration status reports success. -/
def addTopologyChangedCallbacks (h : HostState) (ov : OverrideInstance)
    (clientData : Nat) (ok : Bool) : HostState × OverrideInstance :=
  match addAttributeChangedCallback h clientData ok with
  | (h2, some tok) => (h2, { callbackIds := ov.callbackIds ++ [tok] })
  | (h2, none) => (h2, ov)

/-- Modelled from the spec: MMessage.removeCallbacks is host API (spec
section 6, unsubscribe): every subscription whose token occurs in the
given array is de-registered, so no callback with those tokens can fire
afterwards. -/
def removeCallbacks (h : HostState) (ids : List Nat) : HostState :=
  { h with registry := h.registry.filter (fun e => !(ids.contains e.1)) }

/-- Destructor of OpenSubdivShaderOverride: removes all callbacks whose
ids were recorded in the callbackIds array. -/
def overrideTeardown (h : HostState) (ov : OverrideInstance) : HostState :=
  removeCallbacks h ov.callbackIds

/-- Lifetime of one override instance on the subscription side: a
sequence of initialize calls, each registering the topology-changed
callback once, with the client data and the host-reported status of
each call. -/
def runSubscriptions : HostState → OverrideInstance → List (Nat × Bool) →
    HostState × OverrideInstance
  | h, ov, [] => (h, ov)
  | h, ov, c :: cs =>
      let p := addTopologyChangedCallbacks h ov c.1 c.2
      runSubscriptions p.1 p.2 cs

/-- Invariant tying the host registry to the recorded callback ids of
one instance: all live tokens are below the fresh-id counter, all
recorded tokens are below the counter, and removing every entry whose
token was recorded leaves exactly the registry as it was before the
instance subscribed. -/
def SubsInv (r0 : List (Nat × Nat)) (p : HostState × OverrideInstance) : Prop :=
  (∀ e ∈ p.1.registry, e.1 < p.1.nextId) ∧
  (∀ tok ∈ p.2.callbackIds, tok < p.1.nextId) ∧
  p.1.registry.filter (fun e => !(p.2.callbackIds.contains e.1)) = r0

theorem subsInv_step (r0 : List (Nat × Nat)) (h : HostState)
    (ov : OverrideInstance) (c : Nat × Bool)
    (hinv : SubsInv r0 (h, ov)) :
    SubsInv r0 (addTopologyChangedCallbacks h ov c.1 c.2) := by
  obtain ⟨h1, h2, h3⟩ := hinv
  rcases c with ⟨d, ok⟩
  cases ok with
  | false =>
    exact ⟨h1, h2, h3⟩
  | true =>
    refine ⟨?_, ?_, ?_⟩
    · show ∀ e ∈ h.registry ++ [(h.nextId, d)], e.1 < h.nextId + 1
      intro e he
      rcases List.mem_append.mp he with he | he
      · exact Nat.lt_succ_of_lt (h1 e he)
      · have heq := List.mem_singleton.mp he
        subst heq
        exact Nat.lt_succ_self _
    · show ∀ tok ∈ ov.callbackIds ++ [h.nextId], tok < h.nextId + 1
      intro tok htok
      rcases List.mem_append.mp htok with htok | htok
      · exact Nat.lt_succ_of_lt (h2 tok htok)
      · have heq := List.mem_singleton.mp htok
        subst heq
        exact Nat.lt_succ_self _
    · show List.filter
          (fun e => !((ov.callbackIds ++ [h.nextId]).contains e.1))
          (h.registry ++ [(h.nextId, d)]) = r0
      rw [List.filter_append]
      have hcongr : List.filter
            (fun e => !((ov.callbackIds ++ [h.nextId]).contains e.1))
            h.registry =
          List.filter (fun e => !(ov.callbackIds.contains e.1)) h.registry := by
        apply List.filter_congr
        intro e he
        have hlt : e.1 < h.nextId := h1 e he
        have hne : e.1 ≠ h.nextId := by omega
        simp [hne]
      have hdrop : List.filter
            (fun (e : Nat × Nat) =>
              !((ov.callbackIds ++ [h.nextId]).contains e.1))
            [(h.nextId, d)] = [] := by
        simp
      rw [hcongr, hdrop, List.append_nil]
      exact h3

theorem subsInv_run (r0 : List (Nat × Nat)) :
    ∀ (calls : List (Nat × Bool)) (h : HostState) (ov : OverrideInstance),
      SubsInv r0 (h, ov) → SubsInv r0 (runSubscriptions h ov calls) := by
  intro calls
  induction calls with
  | nil => intro h ov hinv; exact hinv
  | cons c cs ih =>
    intro h ov hinv
    have hstep := subsInv_step r0 h ov c hinv
    simp only [runSubscriptions]
    exact ih (addTopologyChangedCallbacks h ov c.1 c.2).1
      (addTopologyChangedCallbacks h ov c.1 c.2).2 hstep

/-- C7: over any sequence of subscription registrations made by one
override instance (each succeeding or failing as the host reports),
only the tokens of successful registrations are recorded in the
callbackIds array, and the teardown step removes every recorded token
from the host registry: after teardown the registry is exactly what it
was before the instance subscribed, so no notification can fire with
the cached data of the torn-down instance. The hypothesis states the
host freshness guarantee for the pre-existing registry. -/
theorem claim_C7 (h0 : HostState) (calls : List (Nat × Bool))
    (hfresh : ∀ e ∈ h0.registry, e.1 < h0.nextId) :
    (overrideTeardown (runSubscriptions h0 ⟨[]⟩ calls).1
        (runSubscriptions h0 ⟨[]⟩ calls).2).registry = h0.registry := by
  have hbase : SubsInv h0.registry (h0, ⟨[]⟩) := by
    refine ⟨hfresh, ?_, ?_⟩
    · intro tok htok
      exact absurd htok (List.not_mem_nil tok)
    · simp
  have hrun := subsInv_run h0.registry calls h0 ⟨[]⟩ hbase
  obtain ⟨-, -, h3⟩ := hrun
  simpa [overrideTeardown, removeCallbacks] using h3

theorem claim_C7_witness :
    (∀ e ∈ (HostState.mk [(0, 5)] 1).registry,
        e.1 < (HostState.mk [(0, 5)] 1).nextId) ∧
    (overrideTeardown
        (runSubscriptions (HostState.mk [(0, 5)] 1) ⟨[]⟩
          [(7, true), (8, false), (9, true)]).1
        (runSubscriptions (HostState.mk [(0, 5)] 1) ⟨[]⟩
          [(7, true), (8, false), (9, true)]).2).registry =
      (HostState.mk [(0, 5)] 1).registry :=
  ⟨by decide,
    claim_C7 (HostState.mk [(0, 5)] 1) [(7, true), (8, false), (9, true)]
      (by decide)⟩

/- ------------------------------------------------------------------
   OsdBufferGenerator.createVertexStream: the position copy loop
   ------------------------------------------------------------------ -/

/-- Flattened per-vertex position values written by the copy loop of
createVertexStream: for each point, its x, y and z components in that
order. The scalar type is left abstract because the loop only copies
values and performs no arithmetic on them. -/
def writePoints {α : Type} : List (α × α × α) → List α
  | [] => []
  | p :: ps => p.1 :: p.2.1 :: p.2.2 :: writePoints ps

/-- Observable outcome of the vertex-buffer protocol: the vertex count
passed to acquire, the values written into the mapped buffer, and
whether commit was called on it. Acquire and commit are host API,
modelled from the spec of the draw-stage buffer contract. -/
structure VertexStreamResult (α : Type) where
  acquiredVertexCount : Nat
  data : List α
  committed : Bool

/-- OsdBufferGenerator.createVertexStream: reads the mesh point list,
acquires the buffer for numVertices vertices, writes x, y and z of each
point in order and finally commits the buffer. The mesh is modelled by
its point list, so numVertices is the length of that list. -/
def createVertexStream {α : Type} (points : List (α × α × α)) :
    VertexStreamResult α :=
  { acquiredVertexCount := points.length
    data := writePoints points
    committed := true }

theorem writePoints_length {α : Type} :
    ∀ ps : List (α × α × α), (writePoints ps).length = 3 * ps.length := by
  intro ps
  induction ps with
  | nil => rfl
  | cons p ps ih =>
    simp only [writePoints, List.length_cons, ih]
    omega

theorem writePoints_getElem {α : Type} :
    ∀ (ps : List (α × α × α)) (i : Nat),
      (writePoints ps)[3 * i]? = (ps[i]?.map fun p => p.1) ∧
      (writePoints ps)[3 * i + 1]? = (ps[i]?.map fun p => p.2.1) ∧
      (writePoints ps)[3 * i + 2]? = (ps[i]?.map fun p => p.2.2) := by
  intro ps
  induction ps with
  | nil => intro i; simp [writePoints]
  | cons p ps ih =>
    intro i
    cases i with
    | zero => simp [writePoints]
    | succ i =>
      have e1 : 3 * (i + 1) = 3 * i + 1 + 1 + 1 := by omega
      rw [e1]
      have e3 : 3 * i + 1 + 1 + 1 + 2 = 3 * i + 2 + 1 + 1 + 1 := by omega
      rw [e3]
      simp only [writePoints, List.getElem?_cons_succ]
      exact ih i

/-- C10: for a mesh with n points, createVertexStream acquires the
buffer for exactly n vertices, the written data holds exactly 3 n
values, the buffer is committed, and for every index i below n the
entries at positions 3 i, 3 i + 1 and 3 i + 2 are the x, y and z
components of the i-th point, in that order. -/
theorem claim_C10 {α : Type} (points : List (α × α × α)) (i : Nat)
    (h : i < points.length) :
    (createVertexStream points).acquiredVertexCount = points.length ∧
    (createVertexStream points).data.length = 3 * points.length ∧
    (createVertexStream points).committed = true ∧
    (createVertexStream points).data[3 * i]? =
      some (points.get ⟨i, h⟩).1 ∧
    (createVertexStream points).data[3 * i + 1]? =
      some (points.get ⟨i, h⟩).2.1 ∧
    (createVertexStream points).data[3 * i + 2]? =
      some (points.get ⟨i, h⟩).2.2 := by
  obtain ⟨g1, g2, g3⟩ := writePoints_getElem points i
  have hget : points[i]? = some (points.get ⟨i, h⟩) := by
    rw [List.getElem?_eq_getElem h]
    rfl
  refine ⟨rfl, writePoints_length points, rfl, ?_, ?_, ?_⟩
  · show (writePoints points)[3 * i]? = some (points.get ⟨i, h⟩).1
    rw [g1, hget]
    rfl
  · show (writePoints points)[3 * i + 1]? = some (points.get ⟨i, h⟩).2.1
    rw [g2, hget]
    rfl
  · show (writePoints points)[3 * i + 2]? = some (points.get ⟨i, h⟩).2.2
    rw [g3, hget]
    rfl

theorem claim_C10_witness :
    (1 : Nat) < [((1 : Nat), (2 : Nat), (3 : Nat)), (4, 5, 6)].length ∧
    ((createVertexStream
        [((1 : Nat), (2 : Nat), (3 : Nat)), (4, 5, 6)]).acquiredVertexCount =
      [((1 : Nat), (2 : Nat), (3 : Nat)), (4, 5, 6)].length ∧
    (createVertexStream
        [((1 : Nat), (2 : Nat), (3 : Nat)), (4, 5, 6)]).data.length =
      3 * [((1 : Nat), (2 : Nat), (3 : Nat)), (4, 5, 6)].length ∧
    (createVertexStream
        [((1 : Nat), (2 : Nat), (3 : Nat)), (4, 5, 6)]).committed = true ∧
    (createVertexStream
        [((1 : Nat), (2 : Nat), (3 : Nat)), (4, 5, 6)]).data[3 * 1]? =
      some ([((1 : Nat), (2 : Nat), (3 : Nat)), (4, 5, 6)].get
        ⟨1, by decide⟩).1 ∧
    (createVertexStream
        [((1 : Nat), (2 : Nat), (3 : Nat)), (4, 5, 6)]).data[3 * 1 + 1]? =
      some ([((1 : Nat), (2 : Nat), (3 : Nat)), (4, 5, 6)].get
        ⟨1, by decide⟩).2.1 ∧
    (createVertexStream
        [((1 : Nat), (2 : Nat), (3 : Nat)), (4, 5, 6)]).data[3 * 1 + 2]? =
      some ([((1 : Nat), (2 : Nat), (3 : Nat)), (4, 5, 6)].get
        ⟨1, by decide⟩).2.2) :=
  ⟨by decide,
    claim_C10 [((1 : Nat), (2 : Nat), (3 : Nat)), (4, 5, 6)] 1 (by decide)⟩

end OpenSubdivMayaViewer
